import Mathlib

/-!
Verification of the retrieval-classification-reranking pipeline of the RAG
repository (modules/query_classifier.py, modules/reranker.py,
modules/rag_chain.py, modules/metrics.py, modules/enhanced_rag_chain.py).

The Python code is shallowly embedded: pure functions become Lean functions,
Python floats become exact rationals (ℚ) where the code only does field
arithmetic, and reals (ℝ) where square roots appear (cosine similarity);
the external embedding / LLM models are abstracted as oracle parameters.
-/

/-! ### String primitives

Models of the Python string and regex primitives used by the repository,
restricted to the French corpus alphabet (ASCII plus the accented letters
appearing in the repository's pattern tables and keyword lists). -/

/-- Model of Python `str.lower` for ASCII plus the French accented capitals. -/
def lowerChar (c : Char) : Char :=
  if c = 'É' then 'é' else if c = 'È' then 'è' else if c = 'Ê' then 'ê' else
  if c = 'Ë' then 'ë' else if c = 'À' then 'à' else if c = 'Â' then 'â' else
  if c = 'Ç' then 'ç' else if c = 'Î' then 'î' else if c = 'Ï' then 'ï' else
  if c = 'Ô' then 'ô' else if c = 'Û' then 'û' else if c = 'Ù' then 'ù' else
  c.toLower

/-- Model of Python `str.lower`. -/
def pyLower (s : String) : String :=
  String.mk (s.toList.map lowerChar)

/-- Accented letters of the corpus language, counted as word characters
by Python's Unicode-aware `\w`. -/
def frenchLetters : List Char :=
  ['é', 'è', 'ê', 'ë', 'à', 'â', 'ä', 'ç', 'î', 'ï', 'ô', 'ö', 'ù', 'û', 'ü',
   'œ', 'É', 'È', 'Ê', 'Ë', 'À', 'Â', 'Ä', 'Ç', 'Î', 'Ï', 'Ô', 'Ö', 'Ù', 'Û', 'Ü']

/-- Model of the regex word-character class `\w` on the corpus alphabet. -/
def isWordChar (c : Char) : Bool :=
  c.isAlphanum || c = '_' || frenchLetters.contains c

/-- Boolean infix test on character lists (Python's `needle in hay`). -/
def infixB (needle : List Char) : List Char → Bool
  | [] => needle.isEmpty
  | c :: t => needle.isPrefixOf (c :: t) || infixB needle t

/-- Model of Python's substring containment `sub in hay`. -/
def containsSub (hay sub : String) : Bool :=
  infixB sub.toList hay.toList

/-- Existence of a match of the regex `a.*b` in a character list:
an occurrence of `a` followed (disjointly) by an occurrence of `b`. -/
def seqMatch (a b : List Char) : List Char → Bool
  | [] => a.isPrefixOf [] && infixB b []
  | c :: t =>
    (a.isPrefixOf (c :: t) && infixB b ((c :: t).drop a.length)) || seqMatch a b t

/-- Model of `re.search("a.*b", hay)` as a Boolean. -/
def containsThen (hay a b : String) : Bool :=
  seqMatch a.toList b.toList hay.toList

/-- Accumulator form of maximal-run splitting (`cur` is the reversed
current run). -/
def runsByAux (p : Char → Bool) (cur : List Char) : List Char → List String
  | [] => if cur.isEmpty then [] else [String.mk cur.reverse]
  | c :: t =>
    if p c then runsByAux p (c :: cur) t
    else if cur.isEmpty then runsByAux p [] t
    else String.mk cur.reverse :: runsByAux p [] t

/-- Maximal runs of characters satisfying `p`, as strings.  With
`p = isWordChar` this is `re.findall(r'\b\w+\b', ·)`; with
`p = not whitespace` it is Python's `str.split()`. -/
def runsBy (p : Char → Bool) (l : List Char) : List String :=
  runsByAux p [] l

/-- `re.findall(r'\b\w+\b', s)`: the maximal word-character runs of `s`. -/
def wordTokens (s : String) : List String :=
  runsBy isWordChar s.toList

/-- Python `str.split()` (split on whitespace runs, dropping empty fields). -/
def pySplitWs (s : String) : List String :=
  runsBy (fun c => !c.isWhitespace) s.toList

/-- Keep-first deduplication; used to model Python `set(...)` cardinalities. -/
def pyUniq : List String → List String
  | [] => []
  | x :: t => x :: (pyUniq t).filter (fun y => y ≠ x)

def isUpperA (c : Char) : Bool := 'A' ≤ c && c ≤ 'Z'

def isLowerA (c : Char) : Bool := 'a' ≤ c && c ≤ 'z'

/-- Shape of a `\b[A-Z][a-z]+\b` match: an ASCII capital followed by a
nonempty all-ASCII-lowercase tail. -/
def isCapToken (w : String) : Bool :=
  match w.toList with
  | [] => false
  | c :: rest => isUpperA c && !rest.isEmpty && rest.all isLowerA

/-- Number of matches of `re.findall(r'\b[A-Z][a-z]+\b', ·)`.  Both `\b`s
force every match to be a complete maximal word-character run (a partial
match would be followed or preceded by a word character, breaking the
boundary), so the matches are exactly the maximal word runs of cap-token
shape, one per run. -/
def capTokenCount (s : String) : ℕ :=
  ((runsBy isWordChar s.toList).filter isCapToken).length

/-! ### Query classifier (modules/query_classifier.py)

The classifier's pattern table `self.patterns` is a dict of alternation
regexes; `re.search` on an alternation of literals is an any-substring
test, and the two `.*` alternatives of the `propale` pattern are modelled
by `containsThen`. -/

def patternDevis (q : String) : Bool :=
  ["devis", "budget", "coût", "prix", "tarif", "estimation", "combien"].any (containsSub q)

def patternMethodologie (q : String) : Bool :=
  ["méthode", "approche", "démarche", "process", "étapes", "comment"].any (containsSub q)

def patternDelivrables (q : String) : Bool :=
  ["livrable", "résultat", "output", "documentation", "rapport"].any (containsSub q)

def patternPlanning (q : String) : Bool :=
  ["planning", "délai", "durée", "temps", "quand", "calendrier"].any (containsSub q)

def patternExpertise (q : String) : Bool :=
  ["expert", "compétence", "skill", "profil", "qui", "équipe"].any (containsSub q)

def patternSecteur (q : String) : Bool :=
  ["secteur", "industrie", "domaine", "vertical", "marché"].any (containsSub q)

def patternComparative (q : String) : Bool :=
  ["compare", "différence", "versus", "vs", "alternative"].any (containsSub q)

def patternExemple (q : String) : Bool :=
  ["exemple", "cas", "illustration", "référence", "similaire"].any (containsSub q)

def patternPropale (q : String) : Bool :=
  ["propale", "proposition", "propose-moi", "offre",
   "réponse à appel d\x27offres"].any (containsSub q)
  || containsThen q "réponds" "appel" || containsThen q "répond" "offre"
  || containsSub q "proposition commerciale"

/-- `self.patterns`, in Python dict insertion order. -/
def queryPatterns : List (String × (String → Bool)) :=
  [("devis", patternDevis), ("methodologie", patternMethodologie),
   ("delivrables", patternDelivrables), ("planning", patternPlanning),
   ("expertise", patternExpertise), ("secteur", patternSecteur),
   ("comparative", patternComparative), ("exemple", patternExemple),
   ("propale", patternPropale)]

/-- `QueryClassifier._classify_query_type` (the argument is the
already-lowercased query, as at the call site in `classify_query`). -/
def classify_query_type (query : String) : List String :=
  let detected := (queryPatterns.filter (fun p => p.2 query)).map Prod.fst
  if detected.isEmpty then ["general"] else detected

/-- The `complexity` record produced by `QueryClassifier._analyze_complexity`. -/
structure Complexity where
  level : String
  score : ℚ
  word_count : ℕ
  specificity : ℕ
deriving DecidableEq, Repr, Inhabited

/-- `QueryClassifier._analyze_complexity` (on the original, non-lowercased query). -/
def analyze_complexity (query : String) : Complexity :=
  let word_count := (pySplitWs query).length
  let question_marks := query.toList.count '?'
  let specific_terms := capTokenCount query
  let complexity_score : ℚ :=
    (word_count : ℚ) * 0.1 + (question_marks : ℚ) * 2 + (specific_terms : ℚ) * 0.5
  let level := if complexity_score > 10 then "high"
               else if complexity_score > 5 then "medium" else "low"
  ⟨level, complexity_score, word_count, specific_terms⟩

/-- The `entities` record of `QueryClassifier._extract_entities` (its contents
come from the external taxonomy file, so it stays abstract here). -/
structure Entities where
  secteurs : List String
  domaines : List String
  technologies : List String
  livrables : List String
deriving DecidableEq, Repr, Inhabited

/-- The `strategy` record of `QueryClassifier._recommend_search_strategy`. -/
structure SearchStrategy where
  search_k : ℕ
  use_filters : Bool
  expand_query : Bool
  prioritize_recent : Bool
  focus_areas : List String
deriving DecidableEq, Repr, Inhabited

/-- `QueryClassifier._recommend_search_strategy`, step for step: the default
strategy, then the `devis` / `methodologie` / `exemple` adjustments in that
order (each overwriting `search_k` and `focus_areas`), then the entity and
complexity adjustments. -/
def recommend_search_strategy (query_type : List String) (entities : Entities)
    (complexity : Complexity) : SearchStrategy :=
  let strategy : SearchStrategy :=
    { search_k := 4, use_filters := false, expand_query := false,
      prioritize_recent := false, focus_areas := [] }
  let strategy := if query_type.contains "devis" then
      { strategy with search_k := 6, focus_areas := ["budget", "tjm", "estimation"] }
    else strategy
  let strategy := if query_type.contains "methodologie" then
      { strategy with search_k := 5, focus_areas := ["methodologie", "process", "etapes"] }
    else strategy
  let strategy := if query_type.contains "exemple" then
      { strategy with search_k := 8, focus_areas := ["cas_client", "reference", "exemple"] }
    else strategy
  let strategy := if !entities.secteurs.isEmpty || !entities.domaines.isEmpty then
      { strategy with use_filters := true }
    else strategy
  let strategy := if complexity.level = "high" then
      { strategy with search_k := max strategy.search_k 7, expand_query := true }
    else strategy
  strategy

/-- The record of `QueryClassifier._ai_classify_query` (produced by the
external LLM, or the hard-coded fallback record). -/
structure AIClassification where
  intention : String
  urgence : String
  secteur_probable : Option String
  type_projet : Option String
  budget_mentionne : Bool
  mots_cles : List String
deriving DecidableEq, Repr, Inhabited

/-- The full classification dict returned by `QueryClassifier.classify_query`. -/
structure QueryClassification where
  query_type : List String
  entities : Entities
  complexity : Complexity
  search_strategy : SearchStrategy
  ai_classification : AIClassification
  enhanced_query : String
deriving DecidableEq, Repr, Inhabited

/-! Spec-side characterization of the search-strategy adjustments, following
the claim's words: the last matching type of the fixed order
devis < methodologie < exemple wins, and the high-complexity floor is
applied afterwards. -/

def baseSearchK (query_type : List String) : ℕ :=
  if query_type.contains "exemple" then 8
  else if query_type.contains "methodologie" then 5
  else if query_type.contains "devis" then 6
  else 4

def baseFocusAreas (query_type : List String) : List String :=
  if query_type.contains "exemple" then ["cas_client", "reference", "exemple"]
  else if query_type.contains "methodologie" then ["methodologie", "process", "etapes"]
  else if query_type.contains "devis" then ["budget", "tjm", "estimation"]
  else []

/-- C10: the type adjustments of `_recommend_search_strategy` are applied in
the fixed order devis, then methodologie, then exemple, each overwriting
`search_k` and `focus_areas` (so the last matching type of that order wins:
a query matching both devis and methodologie gets `search_k = 5`, not 6),
and the high-complexity floor `search_k = max(current, 7)` is applied after
all type adjustments. -/
theorem recommend_search_strategy_write_order (qt : List String) (e : Entities)
    (c : Complexity) :
    ((recommend_search_strategy qt e c).search_k =
        (if c.level = "high" then max (baseSearchK qt) 7 else baseSearchK qt))
    ∧ (recommend_search_strategy qt e c).focus_areas = baseFocusAreas qt
    ∧ (recommend_search_strategy ["devis", "methodologie"] e c).search_k =
        (if c.level = "high" then 7 else 5) := by
  refine ⟨?_, ?_, ?_⟩
  · unfold recommend_search_strategy baseSearchK
    split_ifs <;> simp_all
  · unfold recommend_search_strategy baseFocusAreas
    split_ifs <;> simp_all
  · unfold recommend_search_strategy
    split_ifs <;> simp_all

/-- The budget query of the specification's test scenario. -/
def budgetQuery : String :=
  "Quel est le budget pour un projet IA dans le secteur bancaire ?"

/-- C5 counterexample: on the scenario query the classifier detects the types
`["devis", "secteur"]` — the word "secteur" in the query matches the
`secteur` pattern — so the detected type set is not exactly `{devis}`. -/
theorem budget_query_types_counterexample :
    classify_query_type (pyLower budgetQuery) = ["devis", "secteur"]
    ∧ ("secteur" : String) ≠ "devis" := by
  exact ⟨by decide, by decide⟩

/-- C5 amended: on the scenario query the classifier detects exactly the types
`["devis", "secteur"]` (not just `{devis}`), and for every extracted entity
record the recommended strategy has `search_k = 6` (the query's complexity is
low, so the high-complexity floor does not fire). -/
theorem budget_query_strategy (e : Entities) :
    classify_query_type (pyLower budgetQuery) = ["devis", "secteur"]
    ∧ (recommend_search_strategy (classify_query_type (pyLower budgetQuery)) e
        (analyze_complexity budgetQuery)).search_k = 6 := by
  have hty : classify_query_type (pyLower budgetQuery) = ["devis", "secteur"] := by decide
  have hl : (analyze_complexity budgetQuery).level = "low" := by
    have hw : (pySplitWs budgetQuery).length = 13 := by decide
    have hq : List.count '?' budgetQuery.toList = 1 := by decide
    have hcap : capTokenCount budgetQuery = 1 := by decide
    simp only [analyze_complexity, hw, hq, hcap]
    norm_num
  refine ⟨hty, ?_⟩
  rw [hty]
  unfold recommend_search_strategy
  split_ifs <;> simp_all

/-! ### Documents and metadata

`langchain.schema.Document` is a pair of a content string and a metadata
dict.  Metadata values are modelled by the closed type `MetaVal` covering
the value shapes this pipeline reads or writes. -/

/-- Values stored in a document's (or the response's) metadata dict. -/
inductive MetaVal where
  | str (s : String)
  | num (q : ℚ)
  | bool (b : Bool)
  | strList (l : List String)
  | aiC (a : AIClassification)
  | filt (f : List (String × String))
deriving DecidableEq, Repr

structure Document where
  page_content : String
  metadata : List (String × MetaVal)
deriving DecidableEq, Repr, Inhabited

/-- Python dict lookup `metadata.get(k)`. -/
def getMeta (m : List (String × MetaVal)) (k : String) : Option MetaVal :=
  m.lookup k

/-- Python dict assignment `metadata[k] = v`: overwrite the entry in place
if the key exists, otherwise append it. -/
def setMeta (m : List (String × MetaVal)) (k : String) (v : MetaVal) :
    List (String × MetaVal) :=
  if (m.lookup k).isSome then m.map (fun p => if p.1 = k then (k, v) else p)
  else m ++ [(k, v)]

theorem lookup_cons_ne {β : Type} (k a : String) (b : β) (t : List (String × β))
    (h : k ≠ a) : List.lookup k ((a, b) :: t) = List.lookup k t := by
  have hb : (k == a) = false := beq_eq_false_iff_ne.mpr h
  simp [List.lookup, hb]

theorem lookup_overwrite_self (m : List (String × MetaVal)) (k : String) (v : MetaVal)
    (h : (m.lookup k).isSome) :
    (m.map (fun p => if p.1 = k then (k, v) else p)).lookup k = some v := by
  induction m with
  | nil => simp [List.lookup] at h
  | cons a t ih =>
    obtain ⟨a1, a2⟩ := a
    by_cases h1 : a1 = k
    · subst h1
      simp only [List.map_cons, eq_self_iff_true, if_true]
      exact List.lookup_cons_self
    · rw [lookup_cons_ne k a1 a2 t (Ne.symm h1)] at h
      simp only [List.map_cons, if_neg h1]
      rw [lookup_cons_ne k a1 a2 _ (Ne.symm h1)]
      exact ih h

theorem lookup_overwrite_ne (m : List (String × MetaVal)) (k k' : String) (v : MetaVal)
    (h : k' ≠ k) :
    (m.map (fun p => if p.1 = k then (k, v) else p)).lookup k' = m.lookup k' := by
  induction m with
  | nil => simp
  | cons a t ih =>
    obtain ⟨a1, a2⟩ := a
    by_cases h1 : a1 = k
    · subst h1
      simp only [List.map_cons, eq_self_iff_true, if_true]
      rw [lookup_cons_ne k' a1 v _ h, lookup_cons_ne k' a1 a2 t h]
      exact ih
    · simp only [List.map_cons, if_neg h1]
      by_cases h2 : k' = a1
      · subst h2
        simp only [List.lookup_cons_self]
      · rw [lookup_cons_ne k' a1 a2 _ h2, lookup_cons_ne k' a1 a2 t h2]
        exact ih

theorem lookup_append_single_self (m : List (String × MetaVal)) (k : String) (v : MetaVal)
    (h : m.lookup k = none) : (m ++ [(k, v)]).lookup k = some v := by
  induction m with
  | nil => simp only [List.nil_append]; exact List.lookup_cons_self
  | cons a t ih =>
    obtain ⟨a1, a2⟩ := a
    by_cases h2 : k = a1
    · subst h2
      rw [List.lookup_cons_self] at h
      exact absurd h (by simp)
    · rw [lookup_cons_ne k a1 a2 t h2] at h
      rw [List.cons_append, lookup_cons_ne k a1 a2 _ h2]
      exact ih h

theorem lookup_append_single_ne (m : List (String × MetaVal)) (k k' : String) (v : MetaVal)
    (h : k' ≠ k) : (m ++ [(k, v)]).lookup k' = m.lookup k' := by
  induction m with
  | nil => rw [List.nil_append, lookup_cons_ne k' k v [] h]
  | cons a t ih =>
    obtain ⟨a1, a2⟩ := a
    by_cases h2 : k' = a1
    · subst h2
      rw [List.cons_append, List.lookup_cons_self, List.lookup_cons_self]
    · rw [List.cons_append, lookup_cons_ne k' a1 a2 _ h2, lookup_cons_ne k' a1 a2 t h2]
      exact ih

theorem getMeta_setMeta_self (m : List (String × MetaVal)) (k : String) (v : MetaVal) :
    getMeta (setMeta m k v) k = some v := by
  unfold getMeta setMeta
  by_cases h : (m.lookup k).isSome
  · rw [if_pos h]
    exact lookup_overwrite_self m k v h
  · rw [if_neg h]
    exact lookup_append_single_self m k v (Option.not_isSome_iff_eq_none.mp h)

theorem getMeta_setMeta_ne (m : List (String × MetaVal)) (k k' : String) (v : MetaVal)
    (h : k' ≠ k) : getMeta (setMeta m k v) k' = getMeta m k' := by
  unfold getMeta setMeta
  split_ifs
  · exact lookup_overwrite_ne m k k' v h
  · exact lookup_append_single_ne m k k' v h

/-! ### Document reranker (modules/reranker.py) -/

/-- The French stop-word set of `_calculate_keyword_overlap`. -/
def stopWords : List String :=
  ["le", "la", "les", "un", "une", "des", "de", "du", "et", "ou", "à", "dans",
   "pour", "sur", "avec", "par", "ce", "qui", "que", "dont", "où"]

/-- `set(re.findall(r'\b\w+\b', s.lower())) - stop_words`, as a
duplicate-free token list. -/
def contentWordSet (s : String) : List String :=
  (pyUniq (wordTokens (pyLower s))).filter (fun w => !stopWords.contains w)

/-- `DocumentReranker._calculate_keyword_overlap`: Jaccard index of the
stop-word-free word sets of query and document content. -/
def calculate_keyword_overlap (query : String) (document : Document) : ℚ :=
  let query_words := contentWordSet query
  let doc_words := contentWordSet document.page_content
  if query_words.isEmpty then 0
  else
    let intersection := (query_words.filter (fun w => doc_words.contains w)).length
    let union := query_words.length +
      (doc_words.filter (fun w => !query_words.contains w)).length
    if union > 0 then (intersection : ℚ) / (union : ℚ) else 0

/-- Python truthiness of a metadata lookup (`dict.get`): a missing key,
`None`, `""`, `0`, an empty list and `False` are falsy. -/
def truthyMeta : Option MetaVal → Bool
  | none => false
  | some (.str s) => s != ""
  | some (.num q) => q != 0
  | some (.bool b) => b
  | some (.strList l) => !l.isEmpty
  | some (.aiC _) => true
  | some (.filt f) => !f.isEmpty

/-- Python `metadata.get(k) == expected` for a string `expected`
(a value of any other type compares unequal). -/
def metaEqStr : Option MetaVal → String → Bool
  | some (.str s), t => s == t
  | _, _ => false

/-- Python `metadata.get(k) in expected` for a list of strings. -/
def metaInStrList : Option MetaVal → List String → Bool
  | some (.str s), l => l.contains s
  | _, _ => false

/-- `DocumentReranker._calculate_metadata_relevance`: additive bonuses for
sector / domain / project-type / budget metadata matches, capped at 1. -/
def calculate_metadata_relevance (document : Document) (cls : QueryClassification) : ℚ :=
  let score : ℚ := 0
  let score := match cls.ai_classification.secteur_probable with
    | some es =>
      if es != "" && metaEqStr (getMeta document.metadata "secteur") es then score + 0.3
      else score
    | none => score
  let score :=
    if !cls.entities.domaines.isEmpty &&
       metaInStrList (getMeta document.metadata "domaine") cls.entities.domaines then
      score + 0.3
    else score
  let score := match cls.ai_classification.type_projet with
    | some tp =>
      if tp != "" && metaEqStr (getMeta document.metadata "type_projet") tp then score + 0.2
      else score
    | none => score
  let score :=
    if cls.ai_classification.budget_mentionne &&
       (truthyMeta (getMeta document.metadata "tjm") ||
        truthyMeta (getMeta document.metadata "budget")) then
      score + 0.2
    else score
  min score 1

/-- Business keywords of `_calculate_document_quality`. -/
def businessKeywords : List String :=
  ["client", "projet", "livrable", "méthodologie", "équipe", "expertise", "solution"]

/-- Structure markers of `_calculate_document_quality`. -/
def structureIndicators : List String :=
  ["\n-", "\n•", "\n1.", "\n2.", "##", "###"]

/-- `DocumentReranker._calculate_document_quality`: mean of a length score,
a business-keyword richness score and a structure-marker score. -/
def calculate_document_quality (document : Document) : ℚ :=
  let content := document.page_content
  let length := content.length
  let length_score : ℚ :=
    if 100 ≤ length ∧ length ≤ 2000 then 1
    else if length < 100 then (length : ℚ) / 100
    else max 0.5 (2000 / (length : ℚ))
  let keyword_count :=
    (businessKeywords.filter (fun k => containsSub (pyLower content) k)).length
  let richness_score : ℚ := min ((keyword_count : ℚ) / (businessKeywords.length : ℚ)) 1
  let structure_count :=
    (structureIndicators.filter (fun i => containsSub content i)).length
  let structure_score : ℚ := min ((structure_count : ℚ) / 3) 1
  (length_score + richness_score + structure_score) / 3

/-- `self.weights` of `DocumentReranker.__init__`. -/
def weight_semantic_similarity : ℚ := 0.4

def weight_keyword_overlap : ℚ := 0.2

def weight_metadata_relevance : ℚ := 0.2

def weight_document_quality : ℚ := 0.2

/-- `DocumentReranker._calculate_document_score`.  The semantic sub-score is
produced by the external sentence-embedding model; it is abstracted by the
oracle `semantic`, applied — as `_calculate_semantic_similarity` is — to the
query and the document's `page_content`. -/
def calculate_document_score (semantic : String → String → ℚ) (query : String)
    (document : Document) (cls : QueryClassification) : ℚ :=
  semantic query document.page_content * weight_semantic_similarity +
  calculate_keyword_overlap query document * weight_keyword_overlap +
  calculate_metadata_relevance document cls * weight_metadata_relevance +
  calculate_document_quality document * weight_document_quality

/-- The comparison of `document_scores.sort(key=lambda x: x[1], reverse=True)`:
non-ascending by score. -/
def scoreGE (a b : Document × ℚ) : Prop := b.2 ≤ a.2

instance : DecidableRel scoreGE := fun a b => inferInstanceAs (Decidable (b.2 ≤ a.2))

instance : IsTotal (Document × ℚ) scoreGE := ⟨fun a b => le_total b.2 a.2⟩

instance : IsTrans (Document × ℚ) scoreGE := ⟨fun _ _ _ h h2 => le_trans h2 h⟩

/-- Python's `list.sort` is a stable sort, and with `reverse=True` equal keys
keep their input order; stable descending sorts are extensionally unique, so
insertion sort along `scoreGE` models it. -/
def pySortDesc (l : List (Document × ℚ)) : List (Document × ℚ) :=
  List.insertionSort scoreGE l

/-- The metadata annotation of `rerank_documents` (lines 60-62): store the
final score and the 1-based rank on the surviving documents. -/
def annotateDoc (d : Document) (score : ℚ) (pos : ℕ) : Document :=
  let m := setMeta (setMeta d.metadata "rerank_score" (.num score))
    "rerank_position" (.num (pos : ℚ))
  { d with metadata := m }

/-- `DocumentReranker.rerank_documents`: score each document, sort by
descending score (stable), keep the first `top_k`, and annotate each kept
document with its score and 1-based position.  (The `if not documents`
early return is the `[]` case of this definition.) -/
def rerank_documents (semantic : String → String → ℚ) (query : String)
    (documents : List Document) (cls : QueryClassification) (top_k : ℕ) :
    List Document :=
  let document_scores :=
    documents.map (fun d => (d, calculate_document_score semantic query d cls))
  let sorted := pySortDesc document_scores
  ((sorted.take top_k).enum).map (fun p => annotateDoc p.2.1 p.2.2 (p.1 + 1))

theorem filter_orderedInsert_scoreGE (s : ℚ) (x : Document × ℚ)
    (l : List (Document × ℚ)) :
    (List.orderedInsert scoreGE x l).filter (fun p => p.2 == s) =
      (x :: l).filter (fun p => p.2 == s) := by
  induction l with
  | nil => rfl
  | cons y t ih =>
    by_cases h : scoreGE x y
    · simp only [List.orderedInsert, if_pos h]
    · have hyx : x.2 < y.2 := lt_of_not_le h
      simp only [List.orderedInsert, if_neg h]
      by_cases hx : x.2 = s
      · have hxb : (x.2 == s) = true := beq_iff_eq.mpr hx
        have hy : (y.2 == s) = false :=
          beq_eq_false_iff_ne.mpr (by rw [← hx]; exact ne_of_gt hyx)
        simp only [List.filter_cons, hxb, hy, ih, if_true, if_false,
          Bool.false_eq_true, if_neg]
      · have hxb : (x.2 == s) = false := beq_eq_false_iff_ne.mpr hx
        simp only [List.filter_cons, hxb, ih]
        simp [hxb]

theorem filter_pySortDesc (s : ℚ) (l : List (Document × ℚ)) :
    (pySortDesc l).filter (fun p => p.2 == s) = l.filter (fun p => p.2 == s) := by
  induction l with
  | nil => rfl
  | cons x t ih =>
    have hs : pySortDesc (x :: t) = List.orderedInsert scoreGE x (pySortDesc t) := rfl
    rw [hs, filter_orderedInsert_scoreGE]
    simp only [List.filter_cons, ih]

theorem getMeta_annotateDoc_score (d : Document) (s : ℚ) (pos : ℕ) :
    getMeta (annotateDoc d s pos).metadata "rerank_score" = some (.num s) := by
  show getMeta (setMeta (setMeta d.metadata "rerank_score" (.num s))
    "rerank_position" (.num (pos : ℚ))) "rerank_score" = _
  rw [getMeta_setMeta_ne _ _ _ _ (by decide), getMeta_setMeta_self]

theorem getMeta_annotateDoc_pos (d : Document) (s : ℚ) (pos : ℕ) :
    getMeta (annotateDoc d s pos).metadata "rerank_position" = some (.num (pos : ℚ)) := by
  show getMeta (setMeta (setMeta d.metadata "rerank_score" (.num s))
    "rerank_position" (.num (pos : ℚ))) "rerank_position" = _
  exact getMeta_setMeta_self _ _ _

theorem length_pySortDesc (l : List (Document × ℚ)) :
    (pySortDesc l).length = l.length :=
  (List.perm_insertionSort scoreGE l).length_eq

/-- C1: for every query, document list, classification, semantic oracle and
top_k, `rerank_documents` returns exactly `min top_k documents.length`
documents; the four weights sum to 1; each returned document is annotated
with its final weighted score (in the sorted order: the annotated scores are
those of the first `top_k` entries of the descending stable sort of the
scored input) and with its 1-based rank matching the output order; the
sorted score sequence is non-increasing; the sorted list is a permutation of
the scored input; and for every score value the tied documents appear in the
sorted list exactly in their input order (stability). -/
theorem rerank_documents_spec (semantic : String → String → ℚ) (query : String)
    (documents : List Document) (cls : QueryClassification) (top_k : ℕ) :
    weight_semantic_similarity + weight_keyword_overlap + weight_metadata_relevance +
        weight_document_quality = 1
    ∧ (rerank_documents semantic query documents cls top_k).length =
        min top_k documents.length
    ∧ (rerank_documents semantic query documents cls top_k).map
          (fun d => getMeta d.metadata "rerank_score")
        = ((pySortDesc (documents.map (fun d =>
            (d, calculate_document_score semantic query d cls)))).take top_k).map
            (fun p => some (MetaVal.num p.2))
    ∧ (rerank_documents semantic query documents cls top_k).map
          (fun d => getMeta d.metadata "rerank_position")
        = (List.range (min top_k documents.length)).map
            (fun i => some (MetaVal.num ((i + 1 : ℕ) : ℚ)))
    ∧ List.Pairwise (fun a b : ℚ => b ≤ a)
        (((pySortDesc (documents.map (fun d =>
            (d, calculate_document_score semantic query d cls)))).take top_k).map
          Prod.snd)
    ∧ (pySortDesc (documents.map (fun d =>
          (d, calculate_document_score semantic query d cls)))).Perm
        (documents.map (fun d => (d, calculate_document_score semantic query d cls)))
    ∧ ∀ s : ℚ, (pySortDesc (documents.map (fun d =>
          (d, calculate_document_score semantic query d cls)))).filter
            (fun p => p.2 == s)
        = (documents.map (fun d => (d, calculate_document_score semantic query d cls))).filter
            (fun p => p.2 == s) := by
  have hlen : (pySortDesc (documents.map (fun d =>
      (d, calculate_document_score semantic query d cls)))).length = documents.length := by
    rw [length_pySortDesc, List.length_map]
  refine ⟨?_, ?_, ?_, ?_, ?_, ?_, ?_⟩
  · norm_num [weight_semantic_similarity, weight_keyword_overlap,
      weight_metadata_relevance, weight_document_quality]
  · show (((pySortDesc _).take top_k).enum.map _).length = _
    rw [List.length_map, List.enum_length, List.length_take, hlen]
  · show (((pySortDesc _).take top_k).enum.map _).map _ = _
    rw [List.map_map]
    have hfun : ((fun d => getMeta d.metadata "rerank_score") ∘
        (fun p : ℕ × (Document × ℚ) => annotateDoc p.2.1 p.2.2 (p.1 + 1)))
        = (fun q : Document × ℚ => some (MetaVal.num q.2)) ∘ Prod.snd := by
      funext p
      exact getMeta_annotateDoc_score p.2.1 p.2.2 (p.1 + 1)
    rw [hfun, ← List.map_map, List.enum_map_snd]
  · show (((pySortDesc _).take top_k).enum.map _).map _ = _
    rw [List.map_map]
    have hfun : ((fun d => getMeta d.metadata "rerank_position") ∘
        (fun p : ℕ × (Document × ℚ) => annotateDoc p.2.1 p.2.2 (p.1 + 1)))
        = (fun i : ℕ => some (MetaVal.num ((i + 1 : ℕ) : ℚ))) ∘ Prod.fst := by
      funext p
      exact getMeta_annotateDoc_pos p.2.1 p.2.2 (p.1 + 1)
    rw [hfun, ← List.map_map, List.enum_map_fst]
    have htk : ((pySortDesc (documents.map (fun d =>
        (d, calculate_document_score semantic query d cls)))).take top_k).length =
        min top_k documents.length := by
      rw [List.length_take, hlen]
    rw [htk]
  · have hsorted : List.Sorted scoreGE (pySortDesc (documents.map (fun d =>
        (d, calculate_document_score semantic query d cls)))) :=
      List.sorted_insertionSort scoreGE _
    exact (List.pairwise_map).mpr (List.Pairwise.sublist (List.take_sublist top_k _) hsorted)
  · exact List.perm_insertionSort scoreGE _
  · exact fun s => filter_pySortDesc s _

/-! ### Hybrid retrieval (modules/rag_chain.py) -/

/-- The dedup-and-truncate loop of `hybrid_retrieve` (lines 47-56): walk the
concatenation, append first-seen contents, and stop as soon as the combined
list has reached `top_k` elements (the stop test runs after each iteration's
optional append). -/
def hybridLoop (top_k : ℕ) (seen : List String) (combined : List Document) :
    List Document → List Document
  | [] => combined
  | d :: rest =>
    let fresh := !seen.contains d.page_content
    let seen' := if fresh then d.page_content :: seen else seen
    let combined' := if fresh then combined ++ [d] else combined
    if top_k ≤ combined'.length then combined'
    else hybridLoop top_k seen' combined' rest

/-- `hybrid_retrieve(query, retriever1, retriever2, top_k)`: `results1` and
`results2` are the outputs of the two retrievers (each `[]` when its
retriever raised). -/
def hybrid_retrieve (results1 results2 : List Document) (top_k : ℕ) :
    List Document :=
  hybridLoop top_k [] [] (results1 ++ results2)

/-- The retrieval stage of `generate_response` (rag_chain.py lines 68-71):
at that call site `retriever1` is the FAISS (dense) retriever and
`retriever2` the BM25 (lexical) store, with `top_k = 8`. -/
def generate_response_context_docs (faissResults bm25Results : List Document) :
    List Document :=
  hybrid_retrieve faissResults bm25Results 8

/-- Spec-side operator: first-seen deduplication by exact content. -/
def dedupByContent (seen : List String) : List Document → List Document
  | [] => []
  | d :: rest =>
    if seen.contains d.page_content then dedupByContent seen rest
    else d :: dedupByContent (d.page_content :: seen) rest

/-- The claim's fusion operator: deduplicate by exact content keeping the
first-seen occurrence, then truncate at `top_k`. -/
def dedupTruncate (docs : List Document) (top_k : ℕ) : List Document :=
  (dedupByContent [] docs).take top_k

theorem hybridLoop_eq (top_k : ℕ) :
    ∀ (xs : List Document) (seen : List String) (combined : List Document),
      combined.length < top_k →
      hybridLoop top_k seen combined xs =
        combined ++ (dedupByContent seen xs).take (top_k - combined.length) := by
  intro xs
  induction xs with
  | nil =>
    intro seen combined h
    simp [hybridLoop, dedupByContent]
  | cons d rest ih =>
    intro seen combined h
    by_cases hf : d.page_content ∈ seen
    · have hstep : hybridLoop top_k seen combined (d :: rest) =
          if top_k ≤ combined.length then combined
          else hybridLoop top_k seen combined rest := by
        simp [hybridLoop, hf]
      rw [hstep, if_neg (not_le.mpr h), ih seen combined h]
      have hd : dedupByContent seen (d :: rest) = dedupByContent seen rest := by
        simp [dedupByContent, hf]
      rw [hd]
    · have hstep : hybridLoop top_k seen combined (d :: rest) =
          if top_k ≤ (combined ++ [d]).length then combined ++ [d]
          else hybridLoop top_k (d.page_content :: seen) (combined ++ [d]) rest := by
        simp [hybridLoop, hf]
      rw [hstep]
      have hd : dedupByContent seen (d :: rest) =
          d :: dedupByContent (d.page_content :: seen) rest := by
        simp [dedupByContent, hf]
      by_cases hk : top_k ≤ (combined ++ [d]).length
      · rw [if_pos hk, hd]
        have h1 : top_k - combined.length = 1 := by
          simp only [List.length_append, List.length_cons, List.length_nil] at hk
          omega
        rw [h1, List.take_succ_cons, List.take_zero]
      · rw [if_neg hk]
        have h1 : (combined ++ [d]).length < top_k := not_le.mp hk
        rw [ih _ _ h1, hd]
        have h2 : top_k - combined.length = (top_k - (combined ++ [d]).length) + 1 := by
          simp only [List.length_append, List.length_cons, List.length_nil] at h1 ⊢
          omega
        rw [h2, List.take_succ_cons, List.append_assoc]
        rfl

theorem hybrid_retrieve_eq_dedupTruncate (results1 results2 : List Document)
    (top_k : ℕ) (h : 1 ≤ top_k) :
    hybrid_retrieve results1 results2 top_k =
      dedupTruncate (results1 ++ results2) top_k := by
  unfold hybrid_retrieve dedupTruncate
  rw [hybridLoop_eq top_k _ [] [] (by simpa using h)]
  simp

theorem dedupByContent_not_seen (xs : List Document) :
    ∀ seen, ∀ d ∈ dedupByContent seen xs, d.page_content ∉ seen := by
  induction xs with
  | nil => intro seen d hd; simp [dedupByContent] at hd
  | cons x rest ih =>
    intro seen d hd
    by_cases hx : x.page_content ∈ seen
    · rw [show dedupByContent seen (x :: rest) = dedupByContent seen rest by
        simp [dedupByContent, hx]] at hd
      exact ih seen d hd
    · rw [show dedupByContent seen (x :: rest) =
          x :: dedupByContent (x.page_content :: seen) rest by
        simp [dedupByContent, hx]] at hd
      rcases List.mem_cons.mp hd with rfl | hd
      · exact hx
      · have hni := ih (x.page_content :: seen) d hd
        exact fun hmem => hni (List.mem_cons_of_mem _ hmem)

theorem dedupByContent_contents_nodup (xs : List Document) :
    ∀ seen, ((dedupByContent seen xs).map Document.page_content).Nodup := by
  induction xs with
  | nil => intro seen; simp [dedupByContent]
  | cons x rest ih =>
    intro seen
    by_cases hx : x.page_content ∈ seen
    · rw [show dedupByContent seen (x :: rest) = dedupByContent seen rest by
        simp [dedupByContent, hx]]
      exact ih seen
    · rw [show dedupByContent seen (x :: rest) =
          x :: dedupByContent (x.page_content :: seen) rest by
        simp [dedupByContent, hx]]
      rw [List.map_cons, List.nodup_cons]
      refine ⟨?_, ih _⟩
      intro hmem
      rcases List.mem_map.mp hmem with ⟨d, hd, hdc⟩
      have hni := dedupByContent_not_seen rest (x.page_content :: seen) d hd
      exact hni (by rw [hdc]; exact List.mem_cons_self _ _)

theorem dedupByContent_sublist (xs : List Document) :
    ∀ seen, (dedupByContent seen xs).Sublist xs := by
  induction xs with
  | nil => intro seen; simp [dedupByContent]
  | cons x rest ih =>
    intro seen
    by_cases hx : x.page_content ∈ seen
    · rw [show dedupByContent seen (x :: rest) = dedupByContent seen rest by
        simp [dedupByContent, hx]]
      exact (ih seen).trans (List.sublist_cons_self x rest)
    · rw [show dedupByContent seen (x :: rest) =
          x :: dedupByContent (x.page_content :: seen) rest by
        simp [dedupByContent, hx]]
      exact (ih _).cons₂ x

theorem dedupByContent_first_seen (xs : List Document) :
    ∀ seen, ∀ d ∈ dedupByContent seen xs,
      xs.find? (fun e => e.page_content == d.page_content) = some d := by
  induction xs with
  | nil => intro seen d hd; simp [dedupByContent] at hd
  | cons x rest ih =>
    intro seen d hd
    by_cases hx : x.page_content ∈ seen
    · rw [show dedupByContent seen (x :: rest) = dedupByContent seen rest by
        simp [dedupByContent, hx]] at hd
      have hni := dedupByContent_not_seen rest seen d hd
      have hne : (x.page_content == d.page_content) = false := by
        refine beq_eq_false_iff_ne.mpr ?_
        intro hcon
        exact hni (hcon ▸ hx)
      rw [List.find?_cons, hne]
      exact ih seen d hd
    · rw [show dedupByContent seen (x :: rest) =
          x :: dedupByContent (x.page_content :: seen) rest by
        simp [dedupByContent, hx]] at hd
      rcases List.mem_cons.mp hd with rfl | hd
      · rw [List.find?_cons, show (d.page_content == d.page_content) = true by simp]
      · have hni := dedupByContent_not_seen rest (x.page_content :: seen) d hd
        have hne : (x.page_content == d.page_content) = false := by
          refine beq_eq_false_iff_ne.mpr ?_
          intro hcon
          exact hni (hcon ▸ List.mem_cons_self _ _)
        rw [List.find?_cons, hne]
        exact ih _ d hd

/-- Sample documents for concrete evaluations. -/
def docA : Document := ⟨"a", []⟩

def docB : Document := ⟨"b", []⟩

/-- C2 counterexample: with `top_k = 0` and one retrieved document, the loop
appends the document before testing the bound, so the output has length 1,
which is not at most `top_k`. -/
theorem hybrid_retrieve_topk_zero_counterexample :
    ¬ ((hybrid_retrieve [docA] [] 0).length ≤ 0) := by decide

/-- C2 amended: for every pair of source result lists and every
`top_k ≥ 1` (the bound fails only for `top_k = 0`, where one document can
still be returned), the hybrid output has pairwise distinct contents, has
length at most `top_k`, is a sublist of the concatenated sources, and each
output document is the first occurrence of its content in the concatenated
sources. -/
theorem hybrid_retrieve_nodup_bounded (results1 results2 : List Document)
    (top_k : ℕ) (h : 1 ≤ top_k) :
    ((hybrid_retrieve results1 results2 top_k).map Document.page_content).Nodup
    ∧ (hybrid_retrieve results1 results2 top_k).length ≤ top_k
    ∧ (hybrid_retrieve results1 results2 top_k).Sublist (results1 ++ results2)
    ∧ ∀ d ∈ hybrid_retrieve results1 results2 top_k,
        (results1 ++ results2).find? (fun e => e.page_content == d.page_content) =
          some d := by
  rw [hybrid_retrieve_eq_dedupTruncate _ _ _ h]
  unfold dedupTruncate
  refine ⟨?_, ?_, ?_, ?_⟩
  · exact ((List.take_sublist _ _).map Document.page_content).nodup
      (dedupByContent_contents_nodup (results1 ++ results2) [])
  · exact List.length_take_le _ _
  · exact (List.take_sublist _ _).trans (dedupByContent_sublist (results1 ++ results2) [])
  · intro d hd
    exact dedupByContent_first_seen (results1 ++ results2) [] d
      (List.take_subset _ _ hd)

/-- C2 witness: the amended statement at a concrete input (`top_k = 2`,
duplicate contents across and inside the sources). -/
theorem hybrid_retrieve_nodup_bounded_witness :
    ((hybrid_retrieve [docA, docA, docB] [docB] 2).map Document.page_content).Nodup
    ∧ (hybrid_retrieve [docA, docA, docB] [docB] 2).length ≤ 2
    ∧ (hybrid_retrieve [docA, docA, docB] [docB] 2).Sublist
        ([docA, docA, docB] ++ [docB])
    ∧ ∀ d ∈ hybrid_retrieve [docA, docA, docB] [docB] 2,
        ([docA, docA, docB] ++ [docB]).find?
          (fun e => e.page_content == d.page_content) = some d :=
  hybrid_retrieve_nodup_bounded [docA, docA, docB] [docB] 2 (by norm_num)

/-- C3 counterexample: in `generate_response` the first argument of
`hybrid_retrieve` is the FAISS (dense) retriever's output, so with lexical
result `[docA]` and dense result `[docB]` the pipeline returns
`[docB, docA]`, not the claim's dedup-truncate of lexical ++ dense
(`[docA, docB]`). -/
theorem fusion_order_counterexample :
    generate_response_context_docs [docB] [docA] ≠ dedupTruncate ([docA] ++ [docB]) 8
    ∧ generate_response_context_docs [docB] [docA] = [docB, docA] := by
  constructor
  · decide
  · decide

/-- C3 amended: for every `top_k ≥ 1`, the hybrid output equals
dedup-truncate of the concatenation of `results1` (queried first) and
`results2`, each source keeping its internal order; at the
`generate_response` call site `results1` is the dense (FAISS) list and
`results2` the lexical (BM25) list, so the output is
dedup-truncate(dense ++ lexical, 8), not lexical-then-dense. -/
theorem hybrid_fusion_dense_first (faissResults bm25Results results1 results2 :
    List Document) (top_k : ℕ) (h : 1 ≤ top_k) :
    hybrid_retrieve results1 results2 top_k =
      dedupTruncate (results1 ++ results2) top_k
    ∧ generate_response_context_docs faissResults bm25Results =
        dedupTruncate (faissResults ++ bm25Results) 8 :=
  ⟨hybrid_retrieve_eq_dedupTruncate results1 results2 top_k h,
   hybrid_retrieve_eq_dedupTruncate faissResults bm25Results 8 (by norm_num)⟩

/-- C3 witness: the amended statement at a concrete input. -/
theorem hybrid_fusion_dense_first_witness :
    hybrid_retrieve [docA] [docB] 3 = dedupTruncate ([docA] ++ [docB]) 3
    ∧ generate_response_context_docs [docB] [docA] =
        dedupTruncate ([docB] ++ [docA]) 8 :=
  hybrid_fusion_dense_first [docB] [docA] [docA] [docB] 3 (by norm_num)

/-! ### C9: document (im)mutability through the pipeline -/

/-- A constant semantic oracle for concrete evaluations. -/
def sem0 : String → String → ℚ := fun _ _ => 0

/-- A sample classification record for concrete evaluations. -/
def cls0 : QueryClassification :=
  { query_type := ["general"],
    entities := ⟨[], [], [], []⟩,
    complexity := ⟨"low", 0, 0, 0⟩,
    search_strategy := ⟨4, false, false, false, []⟩,
    ai_classification := ⟨"non_classifiee", "medium", none, none, false, []⟩,
    enhanced_query := "q" }

/-- A sample document with loader-style metadata. -/
def doc0 : Document := ⟨"contenu", [("secteur", .str "banque")]⟩

/-- C9 counterexample: reranking does not leave the documents' metadata
unchanged — the returned document's metadata has gained a `rerank_position`
(and `rerank_score`) key that the input document did not have, because
`rerank_documents` writes into `doc.metadata` (reranker.py lines 60-62). -/
theorem rerank_mutates_metadata_counterexample :
    (rerank_documents sem0 "q" [doc0] cls0 1).map Document.metadata ≠ [doc0.metadata]
    ∧ (rerank_documents sem0 "q" [doc0] cls0 1).map
        (fun d => getMeta d.metadata "rerank_position") = [some (.num 1)]
    ∧ getMeta doc0.metadata "rerank_position" = none := by
  refine ⟨?_, ?_, by decide⟩
  · intro hcon
    have := congrArg (fun l => l.map (fun m => (List.lookup "rerank_position" m).isSome))
      hcon
    rw [show (rerank_documents sem0 "q" [doc0] cls0 1).map Document.metadata =
        [(annotateDoc doc0 (calculate_document_score sem0 "q" doc0 cls0) 1).metadata]
      from rfl] at this
    have h1 : getMeta (annotateDoc doc0 (calculate_document_score sem0 "q" doc0 cls0)
        1).metadata "rerank_position" = some (.num ((1 : ℕ) : ℚ)) :=
      getMeta_annotateDoc_pos doc0 _ 1
    unfold getMeta at h1
    simp [h1] at this
    rcases this with ⟨x, hx⟩
    simp [doc0] at hx
  · rw [show (rerank_documents sem0 "q" [doc0] cls0 1).map
        (fun d => getMeta d.metadata "rerank_position") =
        [getMeta (annotateDoc doc0 (calculate_document_score sem0 "q" doc0 cls0)
          1).metadata "rerank_position"] from rfl,
      getMeta_annotateDoc_pos doc0 _ 1]
    norm_num

/-- C9 amended: retrieval and selection never change a document's content,
and reranking returns each selected document with its content unchanged and
its metadata equal to the input metadata with exactly the two annotation
keys `rerank_score` and `rerank_position` written (so metadata is not
unchanged: the annotation writes through to the documents). -/
theorem rerank_documents_annotation (semantic : String → String → ℚ) (query : String)
    (documents : List Document) (cls : QueryClassification) (top_k : ℕ)
    (d' : Document) (h : d' ∈ rerank_documents semantic query documents cls top_k) :
    ∃ d ∈ documents, d'.page_content = d.page_content ∧ ∃ s : ℚ, ∃ i : ℕ,
      d'.metadata = setMeta (setMeta d.metadata "rerank_score" (.num s))
        "rerank_position" (.num (i : ℚ)) := by
  unfold rerank_documents at h
  rcases List.mem_map.mp h with ⟨p, hp, hann⟩
  have hsnd : p.2 ∈ (pySortDesc (documents.map (fun d =>
      (d, calculate_document_score semantic query d cls)))).take top_k := by
    have := List.mem_map_of_mem Prod.snd hp
    rwa [List.enum_map_snd] at this
  have hmem : p.2 ∈ documents.map (fun d =>
      (d, calculate_document_score semantic query d cls)) :=
    (List.perm_insertionSort scoreGE _).mem_iff.mp (List.take_subset _ _ hsnd)
  rcases List.mem_map.mp hmem with ⟨d, hd, hpd⟩
  refine ⟨d, hd, ?_, p.2.2, p.1 + 1, ?_⟩
  · rw [← hann, ← hpd]
    rfl
  · rw [← hann, ← hpd]
    rfl

/-- C9 witness: the amended statement at a concrete input. -/
theorem rerank_documents_annotation_witness :
    ∃ d ∈ [doc0],
      (annotateDoc doc0 (calculate_document_score sem0 "q" doc0 cls0)
          1).page_content = d.page_content
      ∧ ∃ s : ℚ, ∃ i : ℕ,
          (annotateDoc doc0 (calculate_document_score sem0 "q" doc0 cls0)
              1).metadata =
            setMeta (setMeta d.metadata "rerank_score" (.num s))
              "rerank_position" (.num (i : ℚ)) :=
  rerank_documents_annotation sem0 "q" [doc0] cls0 1
    (annotateDoc doc0 (calculate_document_score sem0 "q" doc0 cls0) 1)
    (by rw [show rerank_documents sem0 "q" [doc0] cls0 1 =
          [annotateDoc doc0 (calculate_document_score sem0 "q" doc0 cls0) 1] from rfl]
        exact List.mem_singleton_self _)

/-! ### Semantic similarity (reranker.py lines 93-107)

The sentence-embedding model is the oracle `encode`; the similarity is the
raw cosine `np.dot(q, d) / (np.linalg.norm(q) * np.linalg.norm(d))`.
Division by a zero norm product is 0 in this real-valued model (Python
would produce a NaN there; the encoder never emits zero vectors). -/

noncomputable def dotL (a b : List ℝ) : ℝ := (List.zipWith (· * ·) a b).sum

noncomputable def sumSq (a : List ℝ) : ℝ := (a.map (fun x => x ^ 2)).sum

noncomputable def normL (a : List ℝ) : ℝ := Real.sqrt (sumSq a)

/-- `DocumentReranker._calculate_semantic_similarity` (the `try/except`
guards failures of the external model call, which the total oracle `encode`
cannot raise). -/
noncomputable def calculate_semantic_similarity (encode : String → List ℝ)
    (query : String) (document : Document) : ℝ :=
  dotL (encode query) (encode document.page_content) /
    (normL (encode query) * normL (encode document.page_content))

theorem sumSq_nonneg (a : List ℝ) : 0 ≤ sumSq a := by
  refine List.sum_nonneg ?_
  intro x hx
  rcases List.mem_map.mp hx with ⟨y, _, rfl⟩
  positivity

theorem dotL_sq_le (a : List ℝ) : ∀ b : List ℝ, (dotL a b) ^ 2 ≤ sumSq a * sumSq b := by
  induction a with
  | nil =>
    intro b
    simp [dotL, sumSq]
  | cons x xs ih =>
    intro b
    cases b with
    | nil =>
      simp [dotL, sumSq]
    | cons y ys =>
      have hA : 0 ≤ sumSq xs := sumSq_nonneg xs
      have hB : 0 ≤ sumSq ys := sumSq_nonneg ys
      have hd := ih ys
      have h1 : dotL (x :: xs) (y :: ys) = x * y + dotL xs ys := by
        simp [dotL]
      have h2 : sumSq (x :: xs) = x ^ 2 + sumSq xs := by
        simp [sumSq]
      have h3 : sumSq (y :: ys) = y ^ 2 + sumSq ys := by
        simp [sumSq]
      rw [h1, h2, h3]
      rcases eq_or_lt_of_le hB with hB0 | hBpos
      · have h4 : (dotL xs ys) ^ 2 ≤ 0 := by nlinarith
        have h5 : (dotL xs ys) ^ 2 = 0 := le_antisymm h4 (sq_nonneg _)
        have h6 : dotL xs ys = 0 := by
          exact pow_eq_zero_iff (by norm_num) |>.mp h5
        rw [h6, ← hB0]
        nlinarith [sq_nonneg y, sq_nonneg (x * y), hA]
      · nlinarith [sq_nonneg (sumSq ys * x - y * dotL xs ys), sq_nonneg y, hd, hA, hBpos]

theorem abs_dotL_le (a b : List ℝ) : |dotL a b| ≤ normL a * normL b := by
  have h := dotL_sq_le a b
  rw [show |dotL a b| = Real.sqrt ((dotL a b) ^ 2) from (Real.sqrt_sq_eq_abs _).symm,
    show normL a * normL b = Real.sqrt (sumSq a * sumSq b) from
      (Real.sqrt_mul (sumSq_nonneg a) _).symm]
  exact Real.sqrt_le_sqrt h

theorem calculate_semantic_similarity_bounds (encode : String → List ℝ)
    (query : String) (document : Document) :
    -1 ≤ calculate_semantic_similarity encode query document ∧
      calculate_semantic_similarity encode query document ≤ 1 := by
  unfold calculate_semantic_similarity
  rcases eq_or_lt_of_le (mul_nonneg (Real.sqrt_nonneg (sumSq (encode query)))
      (Real.sqrt_nonneg (sumSq (encode document.page_content)))) with h0 | hpos
  · rw [show normL (encode query) * normL (encode document.page_content) =
        Real.sqrt (sumSq (encode query)) * Real.sqrt (sumSq (encode document.page_content))
      from rfl, ← h0, div_zero]
    norm_num
  · have hpos' : 0 < normL (encode query) * normL (encode document.page_content) := hpos
    have habs : |dotL (encode query) (encode document.page_content) /
        (normL (encode query) * normL (encode document.page_content))| ≤ 1 := by
      rw [abs_div, abs_of_pos hpos']
      exact (div_le_one hpos').mpr (abs_dotL_le _ _)
    exact abs_le.mp habs

theorem min_one_bounds (s : ℚ) (hs : 0 ≤ s) : 0 ≤ min s 1 ∧ min s 1 ≤ 1 :=
  ⟨le_min hs zero_le_one, min_le_right s 1⟩

theorem calculate_keyword_overlap_bounds (query : String) (document : Document) :
    0 ≤ calculate_keyword_overlap query document ∧
      calculate_keyword_overlap query document ≤ 1 := by
  simp only [calculate_keyword_overlap]
  split_ifs with h1 h2
  · norm_num
  · constructor
    · positivity
    · rw [div_le_one (by exact_mod_cast h2)]
      have hle : ((contentWordSet query).filter
          (fun w => (contentWordSet document.page_content).contains w)).length ≤
          (contentWordSet query).length := List.length_filter_le _ _
      have : ((contentWordSet query).filter
          (fun w => (contentWordSet document.page_content).contains w)).length ≤
          (contentWordSet query).length +
          ((contentWordSet document.page_content).filter
            (fun w => !(contentWordSet query).contains w)).length := by omega
      exact_mod_cast this
  · norm_num

theorem ite_add_nonneg {c : Prop} [Decidable c] {s b : ℚ} (hs : 0 ≤ s)
    (hb : 0 ≤ b) : 0 ≤ if c then s + b else s := by
  split_ifs
  · linarith
  · exact hs

theorem calculate_metadata_relevance_bounds (document : Document)
    (cls : QueryClassification) :
    0 ≤ calculate_metadata_relevance document cls ∧
      calculate_metadata_relevance document cls ≤ 1 := by
  simp only [calculate_metadata_relevance]
  refine min_one_bounds _ ?_
  have h03 : (0 : ℚ) ≤ 0.3 := by norm_num
  have h02 : (0 : ℚ) ≤ 0.2 := by norm_num
  have h00 : (0 : ℚ) ≤ 0 := le_refl 0
  rcases cls.ai_classification.secteur_probable with _ | es <;>
    rcases cls.ai_classification.type_projet with _ | tp
  · exact ite_add_nonneg (ite_add_nonneg h00 h03) h02
  · exact ite_add_nonneg (ite_add_nonneg (ite_add_nonneg h00 h03) h02) h02
  · exact ite_add_nonneg (ite_add_nonneg (ite_add_nonneg h00 h03) h03) h02
  · exact ite_add_nonneg
      (ite_add_nonneg (ite_add_nonneg (ite_add_nonneg h00 h03) h03) h02) h02

theorem avg3_bounds (a b c : ℚ) (ha : 0 ≤ a ∧ a ≤ 1) (hb : 0 ≤ b ∧ b ≤ 1)
    (hc : 0 ≤ c ∧ c ≤ 1) : 0 ≤ (a + b + c) / 3 ∧ (a + b + c) / 3 ≤ 1 := by
  constructor
  · linarith [ha.1, hb.1, hc.1]
  · linarith [ha.2, hb.2, hc.2]

theorem length_score_bounds (n : ℕ) :
    0 ≤ (if 100 ≤ n ∧ n ≤ 2000 then (1 : ℚ)
      else if n < 100 then (n : ℚ) / 100 else max 0.5 (2000 / (n : ℚ)))
    ∧ (if 100 ≤ n ∧ n ≤ 2000 then (1 : ℚ)
      else if n < 100 then (n : ℚ) / 100 else max 0.5 (2000 / (n : ℚ))) ≤ 1 := by
  split_ifs with h1 h2
  · norm_num
  · constructor
    · positivity
    · rw [div_le_one (by norm_num)]
      exact_mod_cast h2.le.trans (by norm_num)
  · push_neg at h1
    have h3 : 2000 < n := by omega
    constructor
    · exact le_trans (by norm_num) (le_max_left 0.5 _)
    · refine max_le (by norm_num) ?_
      rw [div_le_one (by exact_mod_cast (by omega : 0 < n))]
      exact_mod_cast h3.le

theorem calculate_document_quality_bounds (document : Document) :
    0 ≤ calculate_document_quality document ∧
      calculate_document_quality document ≤ 1 := by
  simp only [calculate_document_quality]
  exact avg3_bounds _ _ _ (length_score_bounds document.page_content.length)
    (min_one_bounds _ (by positivity)) (min_one_bounds _ (by positivity))

/-- A concrete encoder under which the cosine is negative. -/
noncomputable def encodeNeg : String → List ℝ :=
  fun s => if s = "q" then [1] else [-1]

/-- C4 counterexample: the semantic-similarity sub-score is the raw,
unclamped cosine: with an encoder mapping the query to `[1]` and the
document content to `[-1]` it equals `-1 < 0`, so the four sub-scores do
not all lie in `[0, 1]`. -/
theorem semantic_similarity_negative_counterexample :
    calculate_semantic_similarity encodeNeg "q" docA < 0 := by
  have hq : encodeNeg "q" = [1] := by simp [encodeNeg]
  have hd : encodeNeg docA.page_content = [-1] := by
    rw [show docA.page_content = "a" from rfl]
    simp only [encodeNeg]
    rw [if_neg (by decide)]
  unfold calculate_semantic_similarity
  rw [hq, hd]
  have h1 : dotL [(1 : ℝ)] [(-1 : ℝ)] = -1 := by
    simp [dotL]
  have h2 : normL [(1 : ℝ)] = 1 := by
    simp [normL, sumSq]
  have h3 : normL [(-1 : ℝ)] = 1 := by
    simp [normL, sumSq]
  rw [h1, h2, h3]
  norm_num

/-- C4 amended: the keyword-overlap, metadata-relevance and document-quality
sub-scores each lie in [0,1], and metadata relevance is capped at 1.0 and
never negative; the semantic-similarity sub-score, however, is the raw
cosine similarity: it lies in [-1,1] but is not clamped below at 0 (it can
be negative). -/
theorem rerank_subscore_bounds (encode : String → List ℝ) (query : String)
    (document : Document) (cls : QueryClassification) :
    (0 ≤ calculate_keyword_overlap query document ∧
      calculate_keyword_overlap query document ≤ 1)
    ∧ (0 ≤ calculate_metadata_relevance document cls ∧
        calculate_metadata_relevance document cls ≤ 1)
    ∧ (0 ≤ calculate_document_quality document ∧
        calculate_document_quality document ≤ 1)
    ∧ (-1 ≤ calculate_semantic_similarity encode query document ∧
        calculate_semantic_similarity encode query document ≤ 1) :=
  ⟨calculate_keyword_overlap_bounds query document,
   calculate_metadata_relevance_bounds document cls,
   calculate_document_quality_bounds document,
   calculate_semantic_similarity_bounds encode query document⟩

/-! ### Evaluation metrics (modules/metrics.py)

The sentence-embedding model behind `embed` is the oracle
`embedE : String → List ℝ` (metrics.py embeds a batch by mapping the model
over the texts).  `np.ndarray.size == 0` on a batch corresponds to all
per-text embeddings being empty. -/

/-- `cosine_sim` of metrics.py: 0 on an empty vector, else the sklearn
cosine similarity `dot / (norm * norm)`. -/
noncomputable def cosine_sim (a b : List ℝ) : ℝ :=
  if a.isEmpty || b.isEmpty then 0
  else dotL a b / (normL a * normL b)

/-- Python `str.strip()`. -/
def pyStrip (s : String) : String :=
  String.mk
    ((s.toList.dropWhile Char.isWhitespace).reverse.dropWhile Char.isWhitespace).reverse

/-- `query_document_relevance`: mean cosine similarity between the query
embedding and each retrieved document's embedding. -/
noncomputable def query_document_relevance (embedE : String → List ℝ)
    (query : String) (retrieved_docs : List String) : ℝ :=
  if retrieved_docs.isEmpty || pyStrip query = "" then 0
  else
    let query_emb := embedE query
    let doc_embeddings := retrieved_docs.map embedE
    if doc_embeddings.flatten.isEmpty then 0
    else
      let similarities := doc_embeddings.map (fun e => cosine_sim query_emb e)
      similarities.sum / similarities.length

/-- `answer_faithfulness`: cosine similarity between the answer embedding
and the embedding of the space-joined retrieved texts. -/
noncomputable def answer_faithfulness (embedE : String → List ℝ)
    (generated_answer : String) (retrieved_docs : List String) : ℝ :=
  if pyStrip generated_answer = "" || retrieved_docs.isEmpty then 0
  else cosine_sim (embedE generated_answer)
    (embedE (String.intercalate " " retrieved_docs))

/-- `answer_relevance`: cosine similarity between query and answer
embeddings. -/
noncomputable def answer_relevance (embedE : String → List ℝ)
    (query generated_answer : String) : ℝ :=
  if pyStrip query = "" || pyStrip generated_answer = "" then 0
  else cosine_sim (embedE query) (embedE generated_answer)

/-- All index pairs `i < j` in row order (the double loop of
`context_diversity`). -/
def pairsOf {α : Type} : List α → List (α × α)
  | [] => []
  | x :: t => (t.map (fun y => (x, y))) ++ pairsOf t

/-- `context_diversity`: 1.0 for fewer than two documents, else
`1 − mean pairwise cosine similarity`. -/
noncomputable def context_diversity (embedE : String → List ℝ)
    (retrieved_docs : List String) : ℝ :=
  if retrieved_docs.length ≤ 1 then 1
  else
    let doc_embeddings := retrieved_docs.map embedE
    if doc_embeddings.flatten.isEmpty then 0
    else
      let similarities := (pairsOf doc_embeddings).map (fun p => cosine_sim p.1 p.2)
      let avg_similarity :=
        if similarities.isEmpty then 0 else similarities.sum / similarities.length
      1 - avg_similarity

/-- Field count of `re.split(r'[.!?]+', s)`: one more than the number of
separator runs. -/
def sentenceCount (s : String) : ℕ :=
  (runsBy (fun c => c = '.' || c = '!' || c = '?') s.toList).length + 1

/-- `answer_completeness`: mean of a word-count score saturating at 100
words and a sentence-count score saturating at 5 sentences. -/
noncomputable def answer_completeness (generated_answer : String) : ℝ :=
  if pyStrip generated_answer = "" then 0
  else
    let word_count := (pySplitWs generated_answer).length
    let sentence_count := sentenceCount generated_answer
    let word_score := min ((word_count : ℝ) / 100) 1
    let sentence_score := min ((sentence_count : ℝ) / 5) 1
    (word_score + sentence_score) / 2

/-- Python 3 `round(x, 3)` on the exact real value: round half to even at
the third decimal (float representation effects are out of scope). -/
noncomputable def pyRound3 (x : ℝ) : ℝ :=
  let y := x * 1000
  let n := ⌊y⌋
  let f := y - n
  (if f < 1 / 2 then (n : ℝ) else if 1 / 2 < f then (n : ℝ) + 1
   else if Even n then (n : ℝ) else (n : ℝ) + 1) / 1000

/-- The dict returned by `evaluate_rag`. -/
structure EvaluationReport where
  query_document_relevance : ℝ
  answer_faithfulness : ℝ
  answer_relevance : ℝ
  context_diversity : ℝ
  answer_completeness : ℝ
  overall_score : ℝ

/-- `evaluate_rag`: an empty retrieved set short-circuits to the all-zero
report; otherwise the five metrics are computed, combined into the weighted
overall score, and all six values are rounded to three decimals. -/
noncomputable def evaluate_rag (embedE : String → List ℝ)
    (query generated_answer : String) (retrieved_docs : List String) :
    EvaluationReport :=
  if retrieved_docs.isEmpty then ⟨0, 0, 0, 0, 0, 0⟩
  else
    let query_doc_relevance := query_document_relevance embedE query retrieved_docs
    let faithfulness := answer_faithfulness embedE generated_answer retrieved_docs
    let relevance := answer_relevance embedE query generated_answer
    let diversity := context_diversity embedE retrieved_docs
    let completeness := answer_completeness generated_answer
    let overall_score := query_doc_relevance * 0.25 + faithfulness * 0.25 +
      relevance * 0.25 + diversity * 0.125 + completeness * 0.125
    ⟨pyRound3 query_doc_relevance, pyRound3 faithfulness, pyRound3 relevance,
     pyRound3 diversity, pyRound3 completeness, pyRound3 overall_score⟩

theorem pyRound3_one : pyRound3 1 = 1 := by
  have hfl : ⌊(1 : ℝ) * 1000⌋ = 1000 := by
    rw [Int.floor_eq_iff]
    norm_num
  simp only [pyRound3, hfl]
  norm_num

/-- An embedding oracle for concrete evaluations. -/
noncomputable def embed0 : String → List ℝ := fun _ => [1]

/-- C8 counterexample: inside a full evaluation report an EMPTY retrieved
set does not give context_diversity = 1.0 — `evaluate_rag` short-circuits
to the all-zero report, whose context_diversity is 0.0. -/
theorem evaluate_rag_empty_diversity_counterexample :
    (evaluate_rag embed0 "q" "a" []).context_diversity = 0 ∧ (0 : ℝ) ≠ 1 := by
  exact ⟨rfl, by norm_num⟩

/-- C8 amended: the `context_diversity` metric itself returns exactly 1.0
for empty and singleton retrieved sets, and inside a full evaluation report
a singleton retrieved set yields context_diversity exactly 1.0; an empty
retrieved set, however, short-circuits `evaluate_rag` to the all-zero
report, where context_diversity is 0.0, not 1.0. -/
theorem context_diversity_small_sets (embedE : String → List ℝ)
    (query generated_answer d : String) :
    context_diversity embedE [] = 1
    ∧ context_diversity embedE [d] = 1
    ∧ (evaluate_rag embedE query generated_answer [d]).context_diversity = 1
    ∧ (evaluate_rag embedE query generated_answer []).context_diversity = 0 := by
  refine ⟨rfl, rfl, ?_, rfl⟩
  show pyRound3 (context_diversity embedE [d]) = 1
  rw [show context_diversity embedE [d] = 1 from rfl, pyRound3_one]

/-! ### Enhanced pipeline entry point (modules/enhanced_rag_chain.py)

`generate_enhanced_response` is modelled with its external collaborators as
oracles: the classification `cls` (the output of `classify_query`, which
involves the LLM), the retriever `retrieve` (the module-level FAISS
retriever built with `k = 8`; the locally assembled `search_kwargs` dict —
including its filter entry — is never passed to `get_relevant_documents`
in the source, so the retriever depends only on the query string), the
reranker's semantic oracle, and the generation model's answer text
`llmContent`.  Python dict keys are modelled by `Option` fields: an outer
`none` means the key is absent from the returned dict; for `debug_info`,
whose key is always present, the inner `Option` distinguishes the `None`
value from a debug dict. -/

/-- One entry of `explain_reranking`'s `document_explanations`. -/
structure DocumentExplanation where
  document_index : ℕ
  final_score : ℚ
  semantic_similarity : ℚ
  keyword_overlap : ℚ
  metadata_relevance : ℚ
  document_quality : ℚ
  content_preview : String
  metadata : List (String × MetaVal)
deriving DecidableEq, Repr

/-- The dict returned by `DocumentReranker.explain_reranking`. -/
structure RerankingExplanation where
  query : String
  query_classification : QueryClassification
  reranking_weights : List (String × ℚ)
  document_explanations : List DocumentExplanation
deriving DecidableEq, Repr

/-- `DocumentReranker.explain_reranking`. -/
def explain_reranking (semantic : String → String → ℚ) (query : String)
    (documents : List Document) (cls : QueryClassification) :
    RerankingExplanation :=
  { query := query
    query_classification := cls
    reranking_weights :=
      [("semantic_similarity", weight_semantic_similarity),
       ("keyword_overlap", weight_keyword_overlap),
       ("metadata_relevance", weight_metadata_relevance),
       ("document_quality", weight_document_quality)]
    document_explanations := documents.enum.map (fun p =>
      { document_index := p.1
        final_score := calculate_document_score semantic query p.2 cls
        semantic_similarity := semantic query p.2.page_content
        keyword_overlap := calculate_keyword_overlap query p.2
        metadata_relevance := calculate_metadata_relevance p.2 cls
        document_quality := calculate_document_quality p.2
        content_preview := if p.2.page_content.length > 200 then
            p.2.page_content.take 200 ++ "..."
          else p.2.page_content
        metadata := p.2.metadata }) }

/-- The debug dicts of `generate_enhanced_response`: the early one (empty
retrieval, lines 83-87) and the full one (lines 152-163). -/
inductive DebugBundle where
  | early (query_classification : QueryClassification)
      (search_strategy : SearchStrategy) (documents_found : ℕ)
  | full (query_classification : QueryClassification)
      (search_strategy : SearchStrategy)
      (initial_documents reranked_documents : ℕ)
      (combined_filters : List (String × String))
      (reranking_explanation : RerankingExplanation)
      (final_metadata : List (String × MetaVal))
deriving DecidableEq, Repr

/-- The dict returned by `generate_enhanced_response`.  `none` in
`classification` / `documents_used` means the key is absent (as in the
early return); `debug_info`'s key is always present and `some none` is the
Python `None` value. -/
structure EnhancedResult where
  response : String
  debug_info : Option (Option DebugBundle)
  classification : Option QueryClassification
  documents_used : Option ℕ
deriving DecidableEq, Repr

/-- Python dict assignment for string-valued filter dicts. -/
def setFilter (f : List (String × String)) (k v : String) :
    List (String × String) :=
  if (f.lookup k).isSome then f.map (fun p => if p.1 = k then (k, v) else p)
  else f ++ [(k, v)]

/-- Python truthiness of `combined_filters.get(k)`. -/
def truthyFilter (f : List (String × String)) (k : String) : Bool :=
  match f.lookup k with
  | none => false
  | some v => v != ""

/-- Lines 55-63: copy the caller's filters, then, when `use_filters` is
recommended, auto-add the first detected sector / domain unless the key is
already truthy. -/
def combinedFilters (cls : QueryClassification)
    (filters : Option (List (String × String))) : List (String × String) :=
  let combined := filters.getD []
  let combined := if cls.search_strategy.use_filters then
      match cls.entities.secteurs with
      | [] => combined
      | s :: _ => if truthyFilter combined "secteur" then combined
                  else setFilter combined "secteur" s
    else combined
  let combined := if cls.search_strategy.use_filters then
      match cls.entities.domaines with
      | [] => combined
      | d :: _ => if truthyFilter combined "domaine" then combined
                  else setFilter combined "domaine" d
    else combined
  combined

/-- Python `dict.update`: write every entry into the accumulator. -/
def updateMeta (acc : List (String × MetaVal))
    (entries : List (String × MetaVal)) : List (String × MetaVal) :=
  entries.foldl (fun a p => setMeta a p.1 p.2) acc

/-- `generate_enhanced_response`, step for step: classification (given),
search-strategy extraction, filter combination, retrieval on the
(optionally enhanced) query with the no-result-with-filters fallback to the
original query, the early no-content return, final_k selection by query
type, reranking, metadata aggregation, and the result dict.  Prompt
assembly, generation and storage only feed the opaque `llmContent`. -/
def generate_enhanced_response (semantic : String → String → ℚ)
    (retrieve : String → List Document) (llmContent : String)
    (cls : QueryClassification) (query : String)
    (filters : Option (List (String × String))) (debug_mode : Bool) :
    EnhancedResult :=
  let search_strategy := cls.search_strategy
  let enhanced_query := cls.enhanced_query
  let combined_filters := combinedFilters cls filters
  let search_query := if search_strategy.expand_query then enhanced_query else query
  let initial_docs := retrieve search_query
  let initial_docs := if initial_docs.isEmpty && !combined_filters.isEmpty then
      retrieve query
    else initial_docs
  if initial_docs.isEmpty then
    { response := "Aucun contenu pertinent trouvé dans la base de connaissance.",
      debug_info := some (if debug_mode then
          some (.early cls search_strategy 0)
        else none),
      classification := none,
      documents_used := none }
  else
    let final_k := if cls.query_type.contains "exemple" then
        min 6 initial_docs.length
      else if cls.query_type.contains "devis" then min 5 initial_docs.length
      else min 4 initial_docs.length
    let reranked_docs := rerank_documents semantic query initial_docs cls final_k
    let all_metadata := reranked_docs.foldl (fun a d => updateMeta a d.metadata) []
    let all_metadata := setMeta all_metadata "query_type" (.strList cls.query_type)
    let all_metadata := setMeta all_metadata "query_complexity"
      (.str cls.complexity.level)
    let all_metadata := setMeta all_metadata "ai_classification"
      (.aiC cls.ai_classification)
    let all_metadata := setMeta all_metadata "reranking_applied" (.bool true)
    let all_metadata := setMeta all_metadata "documents_analyzed"
      (.num (initial_docs.length : ℚ))
    let all_metadata := setMeta all_metadata "documents_selected"
      (.num (reranked_docs.length : ℚ))
    let all_metadata := if !combined_filters.isEmpty then
        setMeta all_metadata "filtres_appliques" (.filt combined_filters)
      else all_metadata
    let debug_info : Option DebugBundle := if debug_mode then
        some (.full cls search_strategy initial_docs.length reranked_docs.length
          combined_filters (explain_reranking semantic query reranked_docs cls)
          all_metadata)
      else none
    { response := llmContent,
      debug_info := some debug_info,
      classification := some cls,
      documents_used := some reranked_docs.length }

/-- C6 counterexample: with both retrieval attempts empty the entry point
returns the "no relevant content" result, but that result carries no
`documents_used` key at all — in particular it is not `documents_used = 0`. -/
theorem empty_retrieval_no_documents_used_counterexample :
    (generate_enhanced_response sem0 (fun _ => []) "llm" cls0 "q" none false).response =
      "Aucun contenu pertinent trouvé dans la base de connaissance."
    ∧ (generate_enhanced_response sem0 (fun _ => []) "llm" cls0 "q" none
        false).documents_used = none
    ∧ (generate_enhanced_response sem0 (fun _ => []) "llm" cls0 "q" none
        false).documents_used ≠ some 0 := by
  refine ⟨rfl, rfl, ?_⟩
  rw [show (generate_enhanced_response sem0 (fun _ => []) "llm" cls0 "q" none
      false).documents_used = none from rfl]
  simp

/-- C6 amended: when retrieval yields no documents (the retriever returns
nothing for every query string, so both the filtered/enhanced attempt and
the fallback are empty), the entry point returns the normal "no relevant
content" result without raising (the model is total): the response is the
literal French no-content message, and the returned dict has no
`documents_used` key and no `classification` key at all (rather than
`documents_used = 0`). -/
theorem empty_retrieval_result (semantic : String → String → ℚ)
    (retrieve : String → List Document) (llmContent : String)
    (cls : QueryClassification) (query : String)
    (filters : Option (List (String × String))) (debug_mode : Bool)
    (h : ∀ s, retrieve s = []) :
    generate_enhanced_response semantic retrieve llmContent cls query filters
        debug_mode =
      { response := "Aucun contenu pertinent trouvé dans la base de connaissance.",
        debug_info := some (if debug_mode then
            some (.early cls cls.search_strategy 0)
          else none),
        classification := none,
        documents_used := none } := by
  simp only [generate_enhanced_response, h]
  simp

/-- C6 witness: the amended statement at a concrete input. -/
theorem empty_retrieval_result_witness :
    generate_enhanced_response sem0 (fun _ => []) "llm" cls0 "q" none true =
      { response := "Aucun contenu pertinent trouvé dans la base de connaissance.",
        debug_info := some (if true then
            some (.early cls0 cls0.search_strategy 0)
          else none),
        classification := none,
        documents_used := none } :=
  empty_retrieval_result sem0 (fun _ => []) "llm" cls0 "q" none true
    (fun _ => rfl)

/-- C7 counterexample: with the debug flag false and a nonempty retrieval,
the returned dict still contains the `debug_info` key — with the value
`None` — instead of omitting the key entirely. -/
theorem debug_info_null_counterexample :
    (generate_enhanced_response sem0 (fun _ => [doc0]) "llm" cls0 "q" none
        false).debug_info = some none
    ∧ (generate_enhanced_response sem0 (fun _ => [doc0]) "llm" cls0 "q" none
        false).debug_info ≠ none := by
  refine ⟨rfl, ?_⟩
  rw [show (generate_enhanced_response sem0 (fun _ => [doc0]) "llm" cls0 "q" none
      false).debug_info = some none from rfl]
  simp

/-- C7 amended: whenever the debug flag is false, the returned dict includes
the `debug_info` key with the null value `None` — on both the empty-retrieval
path and the normal path — rather than omitting the key. -/
theorem debug_false_null_debug_info (semantic : String → String → ℚ)
    (retrieve : String → List Document) (llmContent : String)
    (cls : QueryClassification) (query : String)
    (filters : Option (List (String × String))) (debug_mode : Bool)
    (h : debug_mode = false) :
    (generate_enhanced_response semantic retrieve llmContent cls query filters
      debug_mode).debug_info = some none := by
  subst h
  simp only [generate_enhanced_response]
  rw [apply_ite EnhancedResult.debug_info]
  simp

/-- C7 witness: the amended statement at a concrete input. -/
theorem debug_false_null_debug_info_witness :
    (generate_enhanced_response sem0 (fun _ => [doc0]) "llm" cls0 "q" none
      false).debug_info = some none :=
  debug_false_null_debug_info sem0 (fun _ => [doc0]) "llm" cls0 "q" none false rfl
